import Mathlib

/-!
Verification of the `served` service-chain library (src/lib.rs).

The library is embedded shallowly:

* `ServiceContext` (a `HashMap<String, Arc<dyn Any + Send + Sync>>` behind an
  `RwLock`) becomes a function from string keys to optional dynamically-typed
  values.  Dynamic typing (`dyn Any` with its `TypeId`) is modelled by a
  universe of type tags `Ty` together with an interpretation `interp : Ty → Type`;
  a stored value is a tag paired with a value of the interpreted type, and
  `downcast::<T>` succeeds exactly when the stored tag equals `T`.
* A `BasicService` is its `call` function.  Asynchronous execution over the
  shared `Arc<ServiceContext>` is sequential within one pipeline run, so the
  shared mutable store is embedded by explicit state passing: `call` consumes a
  store and returns the store it leaves behind together with `Result`
  (embedded as `Except`).
* The two `ServiceChainExecutor` impls become `BasicService.execute` (the
  base-case impl, which forwards to `call`) and `chainExecute` (the
  `(Head, Tail)` impl: run the head, on error convert via the registered
  `From` conversion `conv` and stop, on success feed the intermediate output
  and the head's final store to the tail).
* `ServiceProcessor` holds a chain executor and a store; its `execute`
  delegates to the chain with the owned store.  Because the Rust processor
  hands the chain an `Arc` clone of the store it owns, the store the chain
  leaves behind is the store the processor owns afterwards; `execute`
  therefore returns the updated processor together with the chain's result.
-/

/-- A type-erased value as stored in the context map: a runtime type tag
(`TypeId` of the concrete type behind `dyn Any`) together with a value of the
corresponding type. -/
structure DynVal (Ty : Type) (interp : Ty → Type) where
  tag : Ty
  val : interp tag

/-- The context store: a mapping from string keys to type-erased values.
Embeds the `HashMap<String, Arc<dyn Any + Send + Sync>>` inside
`ServiceContext`. -/
structure ServiceContext (Ty : Type) (interp : Ty → Type) where
  data : String → Option (DynVal Ty interp)

/-- Embeds `ServiceContext::new`: the empty map. -/
def ServiceContext.new {Ty : Type} {interp : Ty → Type} : ServiceContext Ty interp :=
  ⟨fun _ => none⟩

/-- Embeds `impl Default for ServiceContext`: `default()` calls `Self::new()`. -/
def ServiceContext.defaultStore {Ty : Type} {interp : Ty → Type} : ServiceContext Ty interp :=
  ServiceContext.new

/-- Embeds `ServiceContext::insert`: stores `value` of runtime type `T` under `key`,
replacing whatever was there (`HashMap::insert`). -/
def ServiceContext.insert {Ty : Type} {interp : Ty → Type} [DecidableEq Ty]
    (ctx : ServiceContext Ty interp) (key : String) (T : Ty) (value : interp T) :
    ServiceContext Ty interp :=
  ⟨fun k => if k = key then some ⟨T, value⟩ else ctx.data k⟩

/-- Embeds `ServiceContext::get::<T>`: looks `key` up and downcasts to `T`; the
downcast succeeds exactly when the stored runtime tag equals `T`, otherwise
the result is `none` (`.downcast::<T>().ok()`). -/
def ServiceContext.get {Ty : Type} {interp : Ty → Type} [DecidableEq Ty]
    (ctx : ServiceContext Ty interp) (T : Ty) (key : String) : Option (interp T) :=
  match ctx.data key with
  | none => none
  | some d => if h : d.tag = T then some (h ▸ d.val) else none

/-- The state transition performed by a call to `ServiceContext::get`: the
source method takes `&self`, acquires only the read half of the `RwLock` and
merely reads the map (`data.get(key)?.clone().downcast::<T>().ok()`), so the
store it leaves behind is the store it was given; the pair returned here is
(store after the call, value returned by the call). -/
def ServiceContext.getRun {Ty : Type} {interp : Ty → Type} [DecidableEq Ty]
    (ctx : ServiceContext Ty interp) (T : Ty) (key : String) :
    ServiceContext Ty interp × Option (interp T) :=
  (ctx, ctx.get T key)

/-- Embeds `ServiceError(String)`. -/
structure ServiceError where
  msg : String

/-- Embeds `impl fmt::Display for ServiceError`: the formatter emits exactly the
wrapped string `self.0`, with nothing added. -/
def ServiceError.display (e : ServiceError) : String :=
  e.msg

/-- A `BasicService` with input `I`, output `O` and error `E`, running over
shared context stores of type `St`: its `call` function.  The shared mutable
`Arc<ServiceContext>` is embedded by state passing, so `call` returns the
store it leaves behind along with its `Result`. -/
structure BasicService (St I O E : Type) where
  call : I → St → St × Except E O

/-- The blanket `impl ServiceChainExecutor for S where S: BasicService`
(the single-stage chain): `execute` simply forwards to `call`. -/
def BasicService.execute {St I O E : Type} (s : BasicService St I O E)
    (input : I) (context : St) : St × Except E O :=
  s.call input context

/-- The `impl ServiceChainExecutor for (Head, Tail)` (the composite chain).
`tail` is the tail's `execute` function and `conv` the registered
`From<Head::Error> for Tail::Error` conversion applied by the `?` operator:
await `head.call(input, context)`; on error convert and return immediately;
on success await `tail.execute(intermediate, context)` on the store the head
left behind (the same shared instance). -/
def chainExecute {St I M O E1 E2 : Type}
    (head : BasicService St I M E1) (tail : M → St → St × Except E2 O)
    (conv : E1 → E2) (input : I) (context : St) : St × Except E2 O :=
  match head.call input context with
  | (s', Except.error e) => (s', Except.error (conv e))
  | (s', Except.ok intermediate) => tail intermediate s'

/-- Embeds `ServiceProcessor`: owns one chain executor and one context store. -/
structure ServiceProcessor (St I O E : Type) where
  chain : I → St → St × Except E O
  context : St

/-- Embeds `ServiceProcessor::execute`: delegates to the chain's `execute` with a
clone of the handle to the owned store (`Arc::clone(&self.context)`).  Since
the handle is shared, the store the chain leaves behind is the store the
processor owns afterwards, so the result is the updated processor paired with
the chain's `Result`. -/
def ServiceProcessor.execute {St I O E : Type} (p : ServiceProcessor St I O E)
    (input : I) : ServiceProcessor St I O E × Except E O :=
  match p.chain input p.context with
  | (s', r) => (⟨p.chain, s'⟩, r)

/-- A small concrete universe of runtime types, used to instantiate the
parametric store in concrete witnesses. -/
inductive RTy where
  | rNat : RTy
  | rStr : RTy
deriving DecidableEq

/-- Interpretation of the concrete runtime-type universe. -/
@[reducible] def rinterp : RTy → Type
  | RTy.rNat => Nat
  | RTy.rStr => String

/-- Concrete head service that always fails (used by witnesses). -/
def failHead : BasicService Unit Nat Nat Nat :=
  ⟨fun x s => (s, Except.error (x + 1))⟩

/-- Concrete head service that always succeeds (used by witnesses). -/
def okHead : BasicService Unit Nat Nat Nat :=
  ⟨fun x s => (s, Except.ok (x + 1))⟩

/-- Concrete tail executor (used by witnesses). -/
def okTail : Nat → Unit → Unit × Except Nat Nat :=
  fun y s => (s, Except.ok (y * 10))

/-- Concrete error conversion (used by witnesses). -/
def doubleConv : Nat → Nat :=
  fun e => e * 2

/-- Stage A of the associativity counterexample: always fails with a `Bool`
error (these three stages use three distinct error types, as the registered
`From` conversions between distinct Rust types are arbitrary user code). -/
def cexA : BasicService Unit Nat Nat Bool :=
  ⟨fun _ s => (s, Except.error true)⟩

/-- Stage B of the associativity counterexample. -/
def cexB : BasicService Unit Nat Nat Nat :=
  ⟨fun x s => (s, Except.ok x)⟩

/-- Stage C of the associativity counterexample (as a tail executor). -/
def cexC : Nat → Unit → Unit × Except Int Nat :=
  fun x s => (s, Except.ok x)

/-- Registered conversion from stage A errors to stage B errors. -/
def cexConvAB : Bool → Nat :=
  fun b => cond b 1 0

/-- Registered conversion from stage B errors to stage C errors. -/
def cexConvBC : Nat → Int :=
  fun n => Int.ofNat n

/-- Registered conversion from stage A errors directly to stage C errors:
deliberately NOT the composite of the two conversions above (nothing in Rust
forces the three `From` impls to commute). -/
def cexConvAC : Bool → Int :=
  fun _ => 5

/-- A coherent direct conversion from stage A errors to stage C errors: the
composite of the two link conversions. -/
def cohConvAC : Bool → Int :=
  fun b => cexConvBC (cexConvAB b)

/-- Two context stores with equal underlying maps are equal. -/
theorem ServiceContext.eq_of_data_eq {Ty : Type} {interp : Ty → Type}
    (a b : ServiceContext Ty interp) (h : a.data = b.data) : a = b := by
  cases a
  cases b
  cases h
  rfl

/-- C1: for a composite chain, if the head's call on input `x` from store `s`
fails with error `e` leaving store `s'`, then the chain's `execute` returns
the error converted by the registered `From` conversion (with the head's final
store) and the tail is never invoked: the result is the same for every tail. -/
theorem composite_failfast {St I M O E1 E2 : Type}
    (head : BasicService St I M E1) (tail : M → St → St × Except E2 O)
    (conv : E1 → E2) (x : I) (s s' : St) (e : E1)
    (h : head.call x s = (s', Except.error e)) :
    chainExecute head tail conv x s = (s', Except.error (conv e)) ∧
    ∀ tail' : M → St → St × Except E2 O,
      chainExecute head tail conv x s = chainExecute head tail' conv x s := by
  constructor
  · unfold chainExecute
    rw [h]
  · intro tail'
    unfold chainExecute
    rw [h]

/-- Witness for C1 at a concrete failing head. -/
theorem composite_failfast_witness :
    failHead.call 3 () = ((), Except.error 4) ∧
    chainExecute failHead okTail doubleConv 3 () = ((), Except.error 8) :=
  ⟨rfl, (composite_failfast failHead okTail doubleConv 3 () () 4 rfl).1⟩

/-- C3: for a composite chain, if the head's call on input `x` from store `s`
succeeds with output `y` leaving store `s'`, the chain's `execute` equals the
tail's `execute` at `y`, run on the very store the head left behind. -/
theorem composite_success {St I M O E1 E2 : Type}
    (head : BasicService St I M E1) (tail : M → St → St × Except E2 O)
    (conv : E1 → E2) (x : I) (y : M) (s s' : St)
    (h : head.call x s = (s', Except.ok y)) :
    chainExecute head tail conv x s = tail y s' := by
  unfold chainExecute
  rw [h]

/-- Witness for C3 at a concrete succeeding head. -/
theorem composite_success_witness :
    chainExecute okHead okTail doubleConv 3 () = okTail 4 () ∧
    okTail 4 () = ((), Except.ok 40) :=
  ⟨composite_success okHead okTail doubleConv 3 4 () () rfl, rfl⟩

/-- C5: a single service used as a single-stage chain executes as exactly its
own `call` (output, error value and error type unchanged), and a processor
built on that chain returns exactly that result. -/
theorem single_stage_processor {St I O E : Type}
    (svc : BasicService St I O E) (ctx : St) (x : I) :
    svc.execute x ctx = svc.call x ctx ∧
    ((ServiceProcessor.mk svc.execute ctx).execute x).snd = (svc.call x ctx).snd :=
  ⟨rfl, rfl⟩

/-- C2: on a fresh store, after inserting value `v` of runtime type `T` under
key `k`, `get` at type `T` returns `v`, and `get` at any other runtime type
`U` returns `none` rather than failing. -/
theorem fresh_insert_get {Ty : Type} {interp : Ty → Type} [DecidableEq Ty]
    (k : String) (T U : Ty) (v : interp T) (hne : U ≠ T) :
    ((@ServiceContext.new Ty interp).insert k T v).get T k = some v ∧
    ((@ServiceContext.new Ty interp).insert k T v).get U k = none := by
  constructor
  · simp [ServiceContext.get, ServiceContext.insert, ServiceContext.new]
  · simp [ServiceContext.get, ServiceContext.insert, ServiceContext.new, Ne.symm hne]

/-- Witness for C2 on the concrete universe: a `Nat` stored under a key is
read back at runtime type `Nat` and invisible at runtime type `String`. -/
theorem fresh_insert_get_witness :
    RTy.rStr ≠ RTy.rNat ∧
    ((@ServiceContext.new RTy rinterp).insert "k" RTy.rNat (5 : Nat)).get RTy.rNat "k" =
      some 5 ∧
    ((@ServiceContext.new RTy rinterp).insert "k" RTy.rNat (5 : Nat)).get RTy.rStr "k" =
      none :=
by
  refine ⟨by decide, ?_, ?_⟩
  · exact (fresh_insert_get "k" RTy.rNat RTy.rStr 5 (by decide)).1
  · exact (fresh_insert_get "k" RTy.rNat RTy.rStr 5 (by decide)).2

/-- C6: a second insert under the same key fully replaces the first, whatever
the two runtime types: the resulting store is the one obtained by the second
insert alone, `get` at the latest type returns the latest value, and `get` at
the first type (when different) returns `none`. -/
theorem insert_overwrite {Ty : Type} {interp : Ty → Type} [DecidableEq Ty]
    (s : ServiceContext Ty interp) (k : String)
    (T1 T2 : Ty) (v1 : interp T1) (v2 : interp T2) :
    (s.insert k T1 v1).insert k T2 v2 = s.insert k T2 v2 ∧
    ((s.insert k T1 v1).insert k T2 v2).get T2 k = some v2 ∧
    (T1 ≠ T2 → ((s.insert k T1 v1).insert k T2 v2).get T1 k = none) := by
  refine ⟨?_, ?_, ?_⟩
  · apply ServiceContext.eq_of_data_eq
    funext k'
    by_cases h : k' = k <;> simp [ServiceContext.insert, h]
  · simp [ServiceContext.get, ServiceContext.insert]
  · intro hne
    simp [ServiceContext.get, ServiceContext.insert, Ne.symm hne]

/-- Witness for C6 on the concrete universe: a `String` inserted over a `Nat`
under the same key is the only value any later `get` can see. -/
theorem insert_overwrite_witness :
    (((@ServiceContext.new RTy rinterp).insert "k" RTy.rNat (1 : Nat)).insert
        "k" RTy.rStr "x").get RTy.rStr "k" = some "x" ∧
    (((@ServiceContext.new RTy rinterp).insert "k" RTy.rNat (1 : Nat)).insert
        "k" RTy.rStr "x").get RTy.rNat "k" = none :=
by
  refine ⟨?_, ?_⟩
  · exact (@insert_overwrite RTy rinterp _ ServiceContext.new "k" RTy.rNat RTy.rStr
      1 "x").2.1
  · exact (@insert_overwrite RTy rinterp _ ServiceContext.new "k" RTy.rNat RTy.rStr
      1 "x").2.2 (by decide)

/-- C8: `get` never modifies the store: the store left behind by a call to
`get` is the store it was given, so every subsequent `get` (any key, any
runtime type) returns what it would have returned before the call. -/
theorem get_leaves_store_unchanged {Ty : Type} {interp : Ty → Type} [DecidableEq Ty]
    (ctx : ServiceContext Ty interp) (T : Ty) (key : String) :
    (ctx.getRun T key).fst = ctx ∧
    ∀ (U : Ty) (key' : String),
      ((ctx.getRun T key).fst).get U key' = ctx.get U key' :=
  ⟨rfl, fun _ _ => rfl⟩

/-- C9: `default()` yields the same store as `new()`: the empty store, on
which `get` returns `none` for every key and every runtime type. -/
theorem default_is_empty_new {Ty : Type} {interp : Ty → Type} [DecidableEq Ty] :
    (@ServiceContext.defaultStore Ty interp) = ServiceContext.new ∧
    ∀ (T : Ty) (k : String), (@ServiceContext.defaultStore Ty interp).get T k = none :=
  ⟨rfl, fun _ _ => rfl⟩

/-- C10: displaying `ServiceError(s)` produces exactly `s`, with no prefix,
suffix or wrapping. -/
theorem serviceError_display_exact (s : String) :
    (ServiceError.mk s).display = s :=
  rfl

/-- C7: `ServiceProcessor::execute` delegates to the owned chain's `execute`
with a handle to the processor's own store; afterwards the chain is unchanged
and the owned store is exactly the store the chain left behind (never reset or
replaced), so a second `execute` runs the chain over the store produced by the
first call and sees everything inserted during it. -/
theorem processor_persistent_context {St I O E : Type}
    (p : ServiceProcessor St I O E) (x1 x2 : I) :
    (p.execute x1).snd = (p.chain x1 p.context).snd ∧
    ((p.execute x1).fst).chain = p.chain ∧
    ((p.execute x1).fst).context = (p.chain x1 p.context).fst ∧
    ((p.execute x1).fst.execute x2).snd = (p.chain x2 (p.chain x1 p.context).fst).snd :=
  ⟨rfl, rfl, rfl, rfl⟩

/-- C4 (amended): for three stages A, B, C with link conversions `convAB`,
`convBC` and a direct conversion `convAC` that agrees with their composite,
the chain (A, (B, C)) and the chain ((A, B), C) — the latter with the
two-stage chain (A, B) in head position — produce the same store and the same
output or error on every input. -/
theorem chain_assoc {St I M1 M2 O EA EB EC : Type}
    (A : BasicService St I M1 EA) (B : BasicService St M1 M2 EB)
    (Ccall : M2 → St → St × Except EC O)
    (convAB : EA → EB) (convBC : EB → EC) (convAC : EA → EC)
    (hcoh : ∀ e, convAC e = convBC (convAB e)) (x : I) (s : St) :
    chainExecute A (chainExecute B Ccall convBC) convAC x s =
    chainExecute ⟨chainExecute A B.execute convAB⟩ Ccall convBC x s := by
  show chainExecute A (chainExecute B Ccall convBC) convAC x s =
    chainExecute ⟨fun input context => chainExecute A B.execute convAB input context⟩
      Ccall convBC x s
  unfold chainExecute BasicService.execute
  rcases hA : A.call x s with ⟨s', r⟩
  rcases r with e | y
  · simp [hA, hcoh]
  · rcases hB : B.call y s' with ⟨s'', rB⟩
    rcases rB with eB | z <;> simp [hA, hB]

/-- Witness for C4 (amended) at concrete stages with a coherent direct
conversion. -/
theorem chain_assoc_witness :
    chainExecute cexA (chainExecute cexB cexC cexConvBC) cohConvAC 0 () =
    chainExecute ⟨chainExecute cexA cexB.execute cexConvAB⟩ cexC cexConvBC 0 () :=
  chain_assoc cexA cexB cexC cexConvAB cexConvBC cohConvAC (fun _ => rfl) 0 ()

/-- Counterexample to C4 as stated: with the registered conversions
`cexConvAB`, `cexConvBC`, `cexConvAC` (all legal, since nothing forces the
direct A-to-C conversion to be the composite of the two link conversions),
stage A's failure surfaces as error `5` through (A, (B, C)) but as error `1`
through ((A, B), C) on input `0`. -/
theorem chain_assoc_counterexample :
    chainExecute cexA (chainExecute cexB cexC cexConvBC) cexConvAC 0 () ≠
    chainExecute ⟨chainExecute cexA cexB.execute cexConvAB⟩ cexC cexConvBC 0 () := by
  intro h
  have h2 : (Except.error 5 : Except Int Nat) = Except.error 1 :=
    congrArg Prod.snd h
  injection h2 with h3
  exact absurd h3 (by decide)
